import Mathlib

/-!
Verification of `generate_demo.py` against its specification.

The development shallowly embeds the script's data and control flow:

* paths are lists of components (a component is a list of characters),
* the working copy's file system is an association list from absolute
  paths to file contents (the newest write shadows older entries),
* the git and GitHub collaborators are opaque: each call's outcome is
  supplied by an oracle record, and the calls the script performs are
  recorded as an explicit operation trace,
* raised Python exceptions become `Except`/`Option` error values.

Three undefined names in the source are decisive and are embedded as the
`NameError` exceptions they raise: `pathlib` in `safe_save_files` (only
`Path` is imported at line 20, yet lines 55 and 57 reference
`pathlib.Path`), `file_dict` in `generate_code` (line 106 returns it, but
line 104 bound `files_dict`), and `fpath` in the staging call of the
per-issue loop (line 322).  Consequently `safe_save_files` can never
write a file and the per-issue pipeline always raises at its generation
step.  The path notions the claims and the specification quantify over
(absolute keys, traversal segments, safe relative keys) are defined
lexically, as the checks the source documents itself to perform would
compute them.

Machine-width arithmetic does not occur in the script, so all numbers
are `Nat`.
-/

namespace GenerateDemo

/-- A path component: the characters between two slashes. -/
abbrev Comp := List Char

/-- An absolute path, as the list of its components below the file-system root. -/
abbrev FPath := List Comp

/-- Shorthand turning a string into a path component. -/
def comp (s : String) : Comp := s.toList

/-- The working-copy file system: an association list from absolute paths to
file contents.  The most recent write is consed in front and shadows older
entries for the same path. -/
abbrev FSys := List (FPath × String)

/-- Write (or overwrite) one file. -/
def fsWrite (fs : FSys) (p : FPath) (c : String) : FSys := (p, c) :: fs

/-- Current content of a path, if the file exists. -/
def fsLookup : FSys → FPath → Option String
  | [], _ => none
  | (q, c) :: rest, p => if q = p then some c else fsLookup rest p

/-- Whitespace test used by Python's `str.strip` (the ASCII cases). -/
def pyIsSpace (c : Char) : Bool :=
  c == ' ' || c == '\t' || c == '\n' || c == '\r' || c == '\x0b' || c == '\x0c'

/-- Test `raw_name.strip() == ""`: every character of the string is whitespace.
In particular it is true for the empty string. -/
def pyStripEmpty (s : String) : Bool := s.toList.all pyIsSpace

/-- Split a character list at slashes, keeping empty chunks, as
`"a/b".split("/")` would. -/
def splitOnSlash : List Char → List Comp
  | [] => [[]]
  | c :: rest =>
    match splitOnSlash rest with
    | [] => [[c]]
    | g :: gs => if c == '/' then [] :: g :: gs else (c :: g) :: gs

/-- The components of a relative POSIX path, as the claims and the
specification speak of them (and as the checks documented in the source's
comments, lines 49-58, would compute them): split on slashes, dropping empty
segments and single-dot segments. -/
def pyParts (s : String) : List Comp :=
  (splitOnSlash s.toList).filter (fun g => !(g.isEmpty) && !(g == ['.']))

/-- The parent-traversal component `".."`. -/
def dotdot : Comp := ['.', '.']

/-- An absolute POSIX path name: it starts with a slash.  This is the
absolute-key notion the claims quantify over. -/
def pyIsAbsolute (s : String) : Bool :=
  match s.toList with
  | c :: _ => c == '/'
  | [] => false

/-- Message of the `ValueError` raised for an empty or whitespace-only name
(source line 54). -/
def errEmpty : String := "Empty filename supplied."

/-- A key of one of the three kinds the claims call out: empty, an absolute
path, or containing a parent-traversal segment. -/
def claimBadKey (k : String) : Bool :=
  k == "" || pyIsAbsolute k || (pyParts k).contains dotdot

/-- A safe relative key in the words of the specification (its File Set
invariant): non-empty, not absolute, free of parent-traversal segments, and
resolving strictly below the root (at least one real component).  Written
from the spec so that it can be compared with the behaviour of
`safe_save_files`. -/
def specSafeRelKey (k : String) : Bool :=
  !(k == "") && !(pyIsAbsolute k) && !((pyParts k).contains dotdot) && !((pyParts k).isEmpty)

/-- Python exceptions that can escape the embedded functions.  `nameError`
carries the undefined identifier, `valueError` the raised message;
`remoteOther` is an error outside the `GithubException` class raised by
`get_contents`; `pushFail` and `prFail` are errors of the push and
pull-request calls; `genApiFail` is a failure of the external OpenAI call or
of parsing its response. -/
inductive Err
  | remoteOther
  | pushFail
  | prFail
  | genApiFail
  | nameError (name : String)
  | valueError (msg : String)
deriving DecidableEq

/-- What executing the validation of one entry of `safe_save_files` (source
lines 53-65) actually raises.  The empty/whitespace check of line 53 works
and raises `ValueError("Empty filename supplied.")` (line 54).  Every key
that passes it reaches `pathlib.Path(raw_name)` at line 55 — but `pathlib`
is not a defined name (only `Path` is imported, line 20), so a `NameError`
is raised before the absolute-path, traversal, and containment checks and
before any directory creation or write.  The `ValueError` branches of lines
56, 58, and 65 are unreachable. -/
def keyExc (k : String) : Err :=
  if k == "" || pyStripEmpty k then .valueError errEmpty
  else .nameError "pathlib"

/-- Shallow embedding of `safe_save_files` (source lines 43-73) as it
executes.  The dict is iterated in insertion order, but every entry raises
during validation (line 54 or line 55, see `keyExc`), so a non-empty File
Set raises at its first entry and nothing is ever written; only the empty
File Set returns normally.  The resolved base directory (line 47) plays no
role because no entry survives validation; the parameter is kept for the
signature. -/
def safe_save_files : List (String × String) → FPath → FSys → FSys × Option Err
  | [], _, fs => (fs, none)
  | (raw_name, _) :: _, _, fs => (fs, some (keyExc raw_name))

/-- A remote issue record: number, title, nullable body, and label set, as
returned by the issue listing. -/
structure IssueRec where
  number : Nat
  title : String
  body : Option String
  labels : List String
deriving DecidableEq

/-- The list comprehension of source lines 291-293: the issues selected for
processing are exactly the fetched open issues carrying the tracking label,
copied one by one in order.  No further filtering of any kind is applied. -/
def selectIssues (fetched : List IssueRec) : List IssueRec :=
  fetched.map (fun i => i)

/-- Outcome of a `repo.get_contents(path)` call: success, a raised
`GithubException` carrying an HTTP status (404 for not-found, but also 500,
403, and so on), or an error outside the `GithubException` class. -/
inductive ContentsOutcome
  | found
  | ghException (status : Nat)
  | otherError
deriving DecidableEq

/-- The git and remote-API calls the script performs, recorded as a trace.
`generate` marks the start of one issue's processing; `addLabel` is included
so that the absence of label mutations is expressible — the script never
performs one. -/
inductive Op
  | generate (issue : Nat)
  | newBranch (tag : String)
  | stage
  | commit (msg : String)
  | push
  | openPR (title : String)
  | addLabel (issue : Nat) (label : String)
  | comment (issue : Nat) (text : String)
  | checkoutMain
deriving DecidableEq

/-- The default `renovate.json` payload (source lines 114-123). -/
def DEFAULT_RENOVATE_JSON : String :=
  "\x7b\n  \"extends\": [\n    \"config:base\"\n  ],\n  \"schedule\": [\n    \"before 5am on Monday\"\n  ],\n  \"automerge\": false\n\x7d\n"

/-- The default workflow payload (source lines 128-164). -/
def DEFAULT_WORKFLOW_YAML : String :=
  "name: Build & Push Docker Image\n\non:\n  push:\n    branches: [main]\n  workflow_dispatch:\n\n"
  ++ "jobs:\n  build:\n    runs-on: ubuntu-latest\n    steps:\n      - name: Checkout repository\n        uses: actions/checkout@v4\n\n"
  ++ "      - name: Log in to GitHub Container Registry\n        uses: docker/login-action@v3\n        with:\n          registry: ghcr.io\n          username: $\x7b\x7b env.GHCR_USERNAME \x7d\x7d\n          password: $\x7b\x7b secrets.GHCR_TOKEN \x7d\x7d\n\n"
  ++ "      - name: Set up QEMU\n        uses: docker/setup-qemu-action@v3\n\n      - name: Set up Docker Buildx\n        uses: docker/setup-buildx-action@v3\n\n"
  ++ "      - name: Build and push\n        uses: docker/build-push-action@v6\n        with:\n          context: .\n          push: true\n          platforms: linux/amd64,linux/arm64\n          tags: |\n            ghcr.io/$\x7b\x7b env.GHCR_USERNAME \x7d\x7d/python-demonstrator:latest\n            ghcr.io/$\x7b\x7b env.GHCR_USERNAME \x7d\x7d/python-demonstrator:$\x7b\x7b github.sha \x7d\x7d\n"

/-- Title and commit message of the renovate bootstrap (source lines 192, 197). -/
def RENOVATE_PR_TITLE : String := "Add default renovate.json"

/-- Title and commit message of the workflow bootstrap (source lines 243, 248). -/
def WORKFLOW_PR_TITLE : String := "Add default GitHub Actions workflow"

/-- Oracle for one `ensure_*` call: the `get_contents` outcome and whether the
fallible git/remote steps (branch creation, push, PR creation) succeed.  The
local file write, staging, and commit are modelled as non-failing, and branch
names abstract from their random suffix.  Unlike `safe_save_files` and the
per-issue pipeline, the bootstrap code contains no undefined names: the
renovate file is written with `Path.write_text` directly (lines 180-182,
230-232). -/
structure EnsureOracle where
  contents : ContentsOutcome
  branchOk : Bool
  pushOk : Bool
  prOk : Bool

/-- Shallow embedding of `ensure_renovate_file` (source lines 169-210).
`get_contents` success returns `true` with no side effect; any
`GithubException` (the bare `except GithubException:` of line 178, regardless
of status) enters the bootstrap: write the default file, create a branch
(a `GitCommandError` here is caught and the function returns `false`), stage,
commit, push, open the PR, check out `main`, and return `false`.  Errors of
push or PR creation propagate. -/
def ensure_renovate_file (o : EnsureOracle) (base : FPath) (fs : FSys) :
    Except Err Bool × FSys × List Op :=
  match o.contents with
  | .found => (.ok true, fs, [])
  | .otherError => (.error .remoteOther, fs, [])
  | .ghException _ =>
    let fs1 := fsWrite fs (base ++ [comp "renovate.json"]) DEFAULT_RENOVATE_JSON
    if !o.branchOk then (.ok false, fs1, [])
    else if !o.pushOk then
      (.error .pushFail, fs1,
        [.newBranch "add-renovate", .stage, .commit RENOVATE_PR_TITLE])
    else if !o.prOk then
      (.error .prFail, fs1,
        [.newBranch "add-renovate", .stage, .commit RENOVATE_PR_TITLE, .push])
    else
      (.ok false, fs1,
        [.newBranch "add-renovate", .stage, .commit RENOVATE_PR_TITLE, .push,
         .openPR RENOVATE_PR_TITLE, .checkoutMain])

/-- Shallow embedding of `ensure_workflow_file` (source lines 215-261), the
same control flow as `ensure_renovate_file` with the workflow paths, branch
tag, message, and payload. -/
def ensure_workflow_file (o : EnsureOracle) (base : FPath) (fs : FSys) :
    Except Err Bool × FSys × List Op :=
  match o.contents with
  | .found => (.ok true, fs, [])
  | .otherError => (.error .remoteOther, fs, [])
  | .ghException _ =>
    let fs1 := fsWrite fs (base ++ [comp ".github", comp "workflows", comp "docker.yml"])
      DEFAULT_WORKFLOW_YAML
    if !o.branchOk then (.ok false, fs1, [])
    else if !o.pushOk then
      (.error .pushFail, fs1,
        [.newBranch "add-workflow", .stage, .commit WORKFLOW_PR_TITLE])
    else if !o.prOk then
      (.error .prFail, fs1,
        [.newBranch "add-workflow", .stage, .commit WORKFLOW_PR_TITLE, .push])
    else
      (.ok false, fs1,
        [.newBranch "add-workflow", .stage, .commit WORKFLOW_PR_TITLE, .push,
         .openPR WORKFLOW_PR_TITLE, .checkoutMain])

/-- Oracle for one issue's processing.  The only external outcome that can
vary is whether the OpenAI chat call of `generate_code` and the parsing of
its response succeed (lines 89-104): if they fail, that exception is what
escapes; if they succeed, `generate_code` still raises, because line 106
returns `file_dict`, an undefined name (line 104 bound `files_dict`).  No
later step of the loop is reachable. -/
structure IssueOracle where
  genCallOk : Bool

/-- How processing of one issue ends: completed, skipped by the `continue` of
source line 320 (branch creation failed), or aborted by an uncaught
exception.  In the source as written only `failed` can occur (see
`processIssue`); the other outcomes mirror the loop's dead structure. -/
inductive IssueStep
  | done
  | skipped
  | failed (e : Err)
deriving DecidableEq

/-- Shallow embedding of one iteration of the per-issue loop of
`process_one_repo` (source lines 300-344) as it executes.  The prompt is
built (lines 303-306) and `generate_code` is invoked (line 309) — and raises
on every path: the external call or JSON parsing may fail, and a successful
call still ends at `return file_dict` (line 106), an undefined name, raising
`NameError`.  The loop's only exception handler guards branch creation
further down (lines 316-320), so the exception escapes: the iteration always
ends `failed` with nothing written and no branch, commit, push, PR, label, or
comment performed.  The later steps of the source — `safe_save_files`, branch
creation, the staging call of line 322 (whose argument `fpath` is itself an
undefined name), commit, push, PR, comment, checkout — are unreachable. -/
def processIssue (io : IssueOracle) (iss : IssueRec) (fs : FSys) :
    IssueStep × FSys × List Op :=
  (.failed (if io.genCallOk then Err.nameError "file_dict" else Err.genApiFail), fs,
    [.generate iss.number])

/-- The per-issue loop of `process_one_repo`: `skipped` (the `continue` of
line 320) and `done` would move on to the next issue, `failed` raises out of
the loop, so later issues are never reached.  With `processIssue` always
failing, every non-empty loop stops at its first issue. -/
def issueLoop (per : Nat → IssueOracle) :
    Nat → List IssueRec → FSys → Except Err Unit × FSys × List Op
  | _, [], fs => (.ok (), fs, [])
  | idx, iss :: rest, fs =>
    match processIssue (per idx) iss fs with
    | (.failed e, fs1, ops1) => (.error e, fs1, ops1)
    | (.skipped, fs1, ops1) =>
      let r := issueLoop per (idx + 1) rest fs1
      (r.1, r.2.1, ops1 ++ r.2.2)
    | (.done, fs1, ops1) =>
      let r := issueLoop per (idx + 1) rest fs1
      (r.1, r.2.1, ops1 ++ r.2.2)

/-- Oracle for one repository: the outcomes of the two prerequisite checks,
the fetched issue list (already filtered by the remote query to open issues
carrying the tracking label), the per-issue oracles by position, the working
copy's path and its initial contents. -/
structure RepoOracle where
  renovate : EnsureOracle
  workflow : EnsureOracle
  issues : List IssueRec
  perIssue : Nat → IssueOracle
  workDir : FPath
  initialFs : FSys

/-- Shallow embedding of `process_one_repo` (source lines 266-344): ensure the
renovate file (returning early when it reports `false`), ensure the workflow
file (same), select the issues, and run the per-issue loop.  The clone step of
lines 279-282 only materialises the working copy and is absorbed into the
initial file system. -/
def process_one_repo (o : RepoOracle) (base : FPath) (fs : FSys) :
    Except Err Unit × FSys × List Op :=
  match ensure_renovate_file o.renovate base fs with
  | (.error e, fs1, ops1) => (.error e, fs1, ops1)
  | (.ok false, fs1, ops1) => (.ok (), fs1, ops1)
  | (.ok true, fs1, ops1) =>
    match ensure_workflow_file o.workflow base fs1 with
    | (.error e, fs2, ops2) => (.error e, fs2, ops1 ++ ops2)
    | (.ok false, fs2, ops2) => (.ok (), fs2, ops1 ++ ops2)
    | (.ok true, fs2, ops2) =>
      let issues := selectIssues o.issues
      if issues.isEmpty then (.ok (), fs2, ops1 ++ ops2)
      else
        let r := issueLoop o.perIssue 0 issues fs2
        (r.1, r.2.1, ops1 ++ ops2 ++ r.2.2)

/-- The logged outcome of one repository in `main`: the caught exception, if
any (source lines 350-353). -/
def repoEntry (o : RepoOracle) : Option Err :=
  match (process_one_repo o o.workDir o.initialFs).1 with
  | .ok _ => none
  | .error e => some e

/-- Shallow embedding of the loop of `main` (source lines 346-353): each
repository is processed inside a `try/except Exception` that logs the error,
so the loop always continues with the next repository. -/
def mainRun : List RepoOracle → List (Option Err)
  | [] => []
  | o :: rest => repoEntry o :: mainRun rest

/-- The issue numbers whose processing was started, read off an operation
trace. -/
def startedIssues (ops : List Op) : List Nat :=
  ops.filterMap (fun op => match op with | .generate n => some n | _ => none)

/-- Predicate for label-mutation calls. -/
def isAddLabel : Op → Bool
  | .addLabel _ _ => true
  | _ => false

/-- Predicate for comment calls on a given issue. -/
def isCommentFor (n : Nat) : Op → Bool
  | .comment m _ => m == n
  | _ => false

/-- Predicate for PR-creation calls. -/
def isOpenPR : Op → Bool
  | .openPR _ => true
  | _ => false

/-- Did the step fail (raise)? -/
def isFailed : IssueStep → Bool
  | .failed _ => true
  | _ => false

/-- A tracking-labelled demo issue. -/
def demoIssue1 : IssueRec := ⟨1, "one", none, ["python_demonstrator"]⟩

/-- A second tracking-labelled demo issue. -/
def demoIssue2 : IssueRec := ⟨2, "two", none, ["python_demonstrator"]⟩

/-- An issue that carries an in-progress label besides the tracking label. -/
def inProgressIssue : IssueRec := ⟨7, "seven", none, ["python_demonstrator", "in-progress"]⟩

/-- Per-issue oracle: the external OpenAI call and the JSON parsing succeed
(what then raises is the `NameError` of line 106). -/
def apiOkOracle : IssueOracle := ⟨true⟩

/-- Prerequisite oracle: the content exists remotely. -/
def foundEnsure : EnsureOracle := ⟨.found, true, true, true⟩

/-- Prerequisite oracle: not found (status 404), all git steps succeeding. -/
def missingEnsure : EnsureOracle := ⟨.ghException 404, true, true, true⟩

/-- Repository with both prerequisites present and two tracking-labelled
issues, every external call succeeding. -/
def repoTwoIssues : RepoOracle :=
  ⟨foundEnsure, foundEnsure, [demoIssue1, demoIssue2], fun _ => apiOkOracle,
   [comp "w"], []⟩

/-- Repository with both prerequisites present and one tracking-labelled
issue, every external call succeeding. -/
def repoOneIssue : RepoOracle :=
  ⟨foundEnsure, foundEnsure, [demoIssue1], fun _ => apiOkOracle, [comp "w"], []⟩

/-- Repository missing its renovate file, with a succeeding bootstrap. -/
def repoMissingRenovate : RepoOracle :=
  ⟨missingEnsure, foundEnsure, [demoIssue1], fun _ => apiOkOracle, [comp "w"], []⟩

/-- One issue's processing performs no label mutation. -/
theorem countAdd_processIssue (io : IssueOracle) (iss : IssueRec) (fs : FSys) :
    ((processIssue io iss fs).2.2).countP isAddLabel = 0 := rfl

/-- The renovate bootstrap performs no label mutation. -/
theorem countAdd_ensure_renovate (o : EnsureOracle) (base : FPath) (fs : FSys) :
    ((ensure_renovate_file o base fs).2.2).countP isAddLabel = 0 := by
  obtain ⟨c, br, pu, pr⟩ := o
  cases c with
  | found => rfl
  | otherError => rfl
  | ghException s => cases br <;> cases pu <;> cases pr <;> rfl

/-- The workflow bootstrap performs no label mutation. -/
theorem countAdd_ensure_workflow (o : EnsureOracle) (base : FPath) (fs : FSys) :
    ((ensure_workflow_file o base fs).2.2).countP isAddLabel = 0 := by
  obtain ⟨c, br, pu, pr⟩ := o
  cases c with
  | found => rfl
  | otherError => rfl
  | ghException s => cases br <;> cases pu <;> cases pr <;> rfl

/-- The renovate bootstrap never performs a generation call. -/
theorem ensure_renovate_no_generate (o : EnsureOracle) (base : FPath) (fs : FSys)
    (n : Nat) : Op.generate n ∉ (ensure_renovate_file o base fs).2.2 := by
  obtain ⟨c, br, pu, pr⟩ := o
  cases c with
  | found => simp [ensure_renovate_file]
  | otherError => simp [ensure_renovate_file]
  | ghException s => cases br <;> cases pu <;> cases pr <;> simp [ensure_renovate_file]

/-- The workflow bootstrap never performs a generation call. -/
theorem ensure_workflow_no_generate (o : EnsureOracle) (base : FPath) (fs : FSys)
    (n : Nat) : Op.generate n ∉ (ensure_workflow_file o base fs).2.2 := by
  obtain ⟨c, br, pu, pr⟩ := o
  cases c with
  | found => simp [ensure_workflow_file]
  | otherError => simp [ensure_workflow_file]
  | ghException s => cases br <;> cases pu <;> cases pr <;> simp [ensure_workflow_file]

/-- The renovate check only returns `true` on the no-side-effect path. -/
theorem ensure_renovate_fst_ok_true (o : EnsureOracle) (base : FPath) (fs : FSys)
    (h : (ensure_renovate_file o base fs).1 = .ok true) :
    ensure_renovate_file o base fs = (.ok true, fs, []) := by
  obtain ⟨c, br, pu, pr⟩ := o
  cases c with
  | found => rfl
  | otherError => exact absurd h (by simp [ensure_renovate_file])
  | ghException s =>
    exfalso
    cases br <;> cases pu <;> cases pr <;> simp [ensure_renovate_file] at h

/-- The workflow check only returns `true` on the no-side-effect path. -/
theorem ensure_workflow_fst_ok_true (o : EnsureOracle) (base : FPath) (fs : FSys)
    (h : (ensure_workflow_file o base fs).1 = .ok true) :
    ensure_workflow_file o base fs = (.ok true, fs, []) := by
  obtain ⟨c, br, pu, pr⟩ := o
  cases c with
  | found => rfl
  | otherError => exact absurd h (by simp [ensure_workflow_file])
  | ghException s =>
    exfalso
    cases br <;> cases pu <;> cases pr <;> simp [ensure_workflow_file] at h

/-- The per-issue loop performs no label mutation. -/
theorem countAdd_issueLoop (per : Nat → IssueOracle) (issues : List IssueRec) :
    ∀ idx fs, ((issueLoop per idx issues fs).2.2).countP isAddLabel = 0 := by
  induction issues with
  | nil => intro idx fs; rfl
  | cons iss rest ih =>
    intro idx fs
    rcases hpi : processIssue (per idx) iss fs with ⟨step, fs1, ops1⟩
    have h1 : ops1.countP isAddLabel = 0 := by
      have hh := countAdd_processIssue (per idx) iss fs
      rw [hpi] at hh
      exact hh
    cases step with
    | failed e =>
      simp only [issueLoop, hpi]
      exact h1
    | skipped =>
      simp only [issueLoop, hpi]
      simp [List.countP_append, h1, ih (idx + 1) fs1]
    | done =>
      simp only [issueLoop, hpi]
      simp [List.countP_append, h1, ih (idx + 1) fs1]

/-- A whole repository run performs no label mutation. -/
theorem countAdd_process_one_repo (o : RepoOracle) (base : FPath) (fs : FSys) :
    ((process_one_repo o base fs).2.2).countP isAddLabel = 0 := by
  unfold process_one_repo
  split
  next e fs1 ops1 heq =>
    have hh := countAdd_ensure_renovate o.renovate base fs
    rw [heq] at hh
    exact hh
  next fs1 ops1 heq =>
    have hh := countAdd_ensure_renovate o.renovate base fs
    rw [heq] at hh
    exact hh
  next fs1 ops1 heq =>
    have hops1 : ops1 = [] := by
      have h1 := ensure_renovate_fst_ok_true o.renovate base fs (by rw [heq])
      rw [heq] at h1
      have hp := congrArg (fun t => t.2.2) h1
      simpa using hp
    subst hops1
    split
    next e fs2 ops2 heq2 =>
      have hh := countAdd_ensure_workflow o.workflow base fs1
      rw [heq2] at hh
      simpa using hh
    next fs2 ops2 heq2 =>
      have hh := countAdd_ensure_workflow o.workflow base fs1
      rw [heq2] at hh
      simpa using hh
    next fs2 ops2 heq2 =>
      have hops2 : ops2 = [] := by
        have h2 := ensure_workflow_fst_ok_true o.workflow base fs1 (by rw [heq2])
        rw [heq2] at h2
        have hp := congrArg (fun t => t.2.2) h2
        simpa using hp
      subst hops2
      by_cases hie : (selectIssues o.issues).isEmpty = true
      · simp [hie]
      · simp [hie, countAdd_issueLoop o.perIssue (selectIssues o.issues) 0 fs2]

/-- C1 (code bug): the path validation the claim describes is what the
source documents itself to perform (comments and messages of lines 49-65),
but it is broken by a missing import: `pathlib` is not a defined name, so for
a File Set whose first key is an absolute path or contains a traversal
segment — keys squarely inside the claim's bad classes — `safe_save_files`
raises `NameError` at line 55 instead of a `ValueError` naming the key.
Only an empty (or whitespace-only) first key reaches the documented
`ValueError`, and that message does not embed the key. -/
theorem C1_nameerror_not_validation :
    claimBadKey "/etc/passwd" = true ∧
    safe_save_files [("/etc/passwd", "y")] [comp "r"] [] =
      ([], some (Err.nameError "pathlib")) ∧
    claimBadKey "../evil.py" = true ∧
    safe_save_files [("../evil.py", "y")] [comp "r"] [] =
      ([], some (Err.nameError "pathlib")) ∧
    claimBadKey "" = true ∧
    safe_save_files [("", "y")] [comp "r"] [] =
      ([], some (Err.valueError errEmpty)) := by decide

/-- C2 (code bug): the key `"a/b"` is a safe relative path by the
specification's File Set invariant and is not whitespace-only, yet
`safe_save_files` raises `NameError` for the undefined name `pathlib` at
line 55 and writes nothing: no File Set with a non-empty key is ever
materialised. -/
theorem C2_safe_files_never_written :
    specSafeRelKey "a/b" = true ∧
    pyStripEmpty "a/b" = false ∧
    safe_save_files [("a/b", "hi")] [comp "w"] [] =
      ([], some (Err.nameError "pathlib")) ∧
    safe_save_files [("a/b", "hi"), ("c.py", "yo")] [comp "w"] [] =
      ([], some (Err.nameError "pathlib")) := by decide

/-- C10 (amended): a whitespace-only key is rejected exactly like an empty
key when it is the File Set's first entry: line 53 strips it to the empty
string and line 54 raises the same `ValueError("Empty filename supplied.")`
an empty key produces, before any write. -/
theorem C10_whitespace_like_empty (base : FPath) (fs : FSys)
    (rest : List (String × String)) (k c : String)
    (hws : pyStripEmpty k = true) :
    safe_save_files ((k, c) :: rest) base fs = (fs, some (Err.valueError errEmpty)) ∧
    safe_save_files (("", c) :: rest) base fs = (fs, some (Err.valueError errEmpty)) := by
  constructor
  · simp [safe_save_files, keyExc, hws]
  · simp [safe_save_files, keyExc]

/-- Witness for C10 at a concrete File Set whose first key is whitespace. -/
theorem C10_witness :
    safe_save_files [(" \t ", "y"), ("b", "z")] [comp "r"] [] =
      ([], some (Err.valueError errEmpty)) ∧
    safe_save_files [("", "y"), ("b", "z")] [comp "r"] [] =
      ([], some (Err.valueError errEmpty)) :=
  C10_whitespace_like_empty [comp "r"] [] [("b", "z")] " \t " "y" (by decide)

/-- Counterexample to C10 as stated: this File Set contains a whitespace-only
key, but the non-whitespace key before it raises `NameError` for the
undefined name `pathlib` at line 55, which is not the empty-key
`ValueError`; the whitespace entry is never even validated. -/
theorem C10_counterexample :
    pyStripEmpty " " = true ∧
    safe_save_files [("a", "x"), (" ", "y")] [comp "r"] [] =
      ([], some (Err.nameError "pathlib")) ∧
    Err.nameError "pathlib" ≠ Err.valueError errEmpty := by decide

/-- C3 (amended): the selection of issues for processing is the identity on
the received remote listing: every fetched tracking-labelled issue is
selected, in the order received, and the empty listing yields the empty
selection.  No exclusion-label filtering exists in the code. -/
theorem C3_selectIssues_identity (issues : List IssueRec) :
    selectIssues issues = issues := by
  simp [selectIssues]

/-- Counterexample to C3 as stated: an issue carrying an in-progress label
besides the tracking label is still selected rather than excluded. -/
theorem C3_counterexample :
    inProgressIssue.labels.contains "in-progress" = true ∧
    selectIssues [inProgressIssue] = [inProgressIssue] ∧
    selectIssues [inProgressIssue] ≠ [] := by decide

/-- C4 (amended): (1) every issue's processing raises (at the generation
step), and (2) the exception escapes the per-issue loop — the loop's only
handler guards branch creation, which is never reached — so a non-empty loop
always stops at its first issue: that issue's error is returned, only that
issue is started, and the remaining issues are never processed; (3) a
repository failure never aborts the run: `main` logs each repository's
outcome and continues, one log entry per repository. -/
theorem C4_error_isolation :
    (∀ (io : IssueOracle) (iss : IssueRec) (fs : FSys),
        isFailed (processIssue io iss fs).1 = true) ∧
    (∀ (per : Nat → IssueOracle) (idx : Nat) (iss : IssueRec) (rest : List IssueRec)
        (fs : FSys),
        issueLoop per idx (iss :: rest) fs =
          (.error (if (per idx).genCallOk then Err.nameError "file_dict"
            else Err.genApiFail), fs, [Op.generate iss.number]) ∧
        startedIssues (issueLoop per idx (iss :: rest) fs).2.2 = [iss.number]) ∧
    (∀ repos : List RepoOracle, mainRun repos = repos.map repoEntry) := by
  refine ⟨?_, ?_, ?_⟩
  · intro io iss fs
    rfl
  · intro per idx iss rest fs
    exact ⟨rfl, rfl⟩
  · intro repos
    induction repos with
    | nil => rfl
    | cons o rest ih => simp [mainRun, ih]

/-- Counterexample to C4 as stated: in a repository with two tracking-labelled
issues, the first issue's generation call raises (`NameError` for the
undefined `file_dict` of line 106), the exception escapes the per-issue loop,
and the second issue is never started. -/
theorem C4_counterexample :
    (process_one_repo repoTwoIssues [comp "w"] []).1 =
      .error (Err.nameError "file_dict") ∧
    startedIssues (process_one_repo repoTwoIssues [comp "w"] []).2.2 = [1] :=
  ⟨rfl, rfl⟩

/-- C5: when the prerequisite already exists remotely, each ensure function
returns `true`, leaves the file system untouched, and performs no git or
remote operation; a second call in the same state returns the very same
result, so calling twice is indistinguishable from calling once. -/
theorem C5_ensure_idempotent (oR oW : EnsureOracle) (base : FPath) (fs : FSys)
    (hR : oR.contents = .found) (hW : oW.contents = .found) :
    ensure_renovate_file oR base fs = (.ok true, fs, []) ∧
    ensure_workflow_file oW base fs = (.ok true, fs, []) ∧
    ensure_renovate_file oR base (ensure_renovate_file oR base fs).2.1 =
      ensure_renovate_file oR base fs ∧
    ensure_workflow_file oW base (ensure_workflow_file oW base fs).2.1 =
      ensure_workflow_file oW base fs := by
  have h1 : ensure_renovate_file oR base fs = (.ok true, fs, []) := by
    unfold ensure_renovate_file
    rw [hR]
  have h2 : ensure_workflow_file oW base fs = (.ok true, fs, []) := by
    unfold ensure_workflow_file
    rw [hW]
  refine ⟨h1, h2, ?_, ?_⟩
  · rw [h1]
    exact h1
  · rw [h2]
    exact h2

/-- Witness for C5 with both prerequisites present remotely. -/
theorem C5_witness :
    ensure_renovate_file foundEnsure [comp "w"] [] = (.ok true, [], []) ∧
    ensure_workflow_file foundEnsure [comp "w"] [] = (.ok true, [], []) ∧
    ensure_renovate_file foundEnsure [comp "w"]
        (ensure_renovate_file foundEnsure [comp "w"] []).2.1 =
      ensure_renovate_file foundEnsure [comp "w"] [] ∧
    ensure_workflow_file foundEnsure [comp "w"]
        (ensure_workflow_file foundEnsure [comp "w"] []).2.1 =
      ensure_workflow_file foundEnsure [comp "w"] [] :=
  C5_ensure_idempotent foundEnsure foundEnsure [comp "w"] [] rfl rfl

/-- C6: if either prerequisite check returns `false`, `process_one_repo`
returns before the issue loop, so no issue of the repository is processed in
that run: no generation call appears in the trace. -/
theorem C6_bootstrap_short_circuits (o : RepoOracle) (base : FPath) (fs : FSys)
    (h : (ensure_renovate_file o.renovate base fs).1 = .ok false ∨
         (ensure_workflow_file o.workflow base fs).1 = .ok false) :
    ∀ n, Op.generate n ∉ (process_one_repo o base fs).2.2 := by
  intro n
  unfold process_one_repo
  split
  next e fs1 ops1 heq =>
    have hh := ensure_renovate_no_generate o.renovate base fs n
    rw [heq] at hh
    exact hh
  next fs1 ops1 heq =>
    have hh := ensure_renovate_no_generate o.renovate base fs n
    rw [heq] at hh
    exact hh
  next fs1 ops1 heq =>
    have h1 := ensure_renovate_fst_ok_true o.renovate base fs (by rw [heq])
    rw [heq] at h1
    have hfs1 : fs1 = fs := by
      have hp := congrArg (fun t => t.2.1) h1
      simpa using hp
    have hops1 : ops1 = [] := by
      have hp := congrArg (fun t => t.2.2) h1
      simpa using hp
    subst hops1
    have hW : (ensure_workflow_file o.workflow base fs1).1 = .ok false := by
      rcases h with hRen | hWf
      · rw [heq] at hRen
        simp at hRen
      · rw [hfs1]
        exact hWf
    split
    next e2 fs2 ops2 heq2 =>
      rw [heq2] at hW
      simp at hW
    next fs2 ops2 heq2 =>
      have hh := ensure_workflow_no_generate o.workflow base fs1 n
      rw [heq2] at hh
      simpa using hh
    next fs2 ops2 heq2 =>
      rw [heq2] at hW
      simp at hW

/-- Witness for C6: a repository missing its renovate file bootstraps and
processes none of its tracking-labelled issues. -/
theorem C6_witness :
    Op.generate 1 ∉ (process_one_repo repoMissingRenovate [comp "w"] []).2.2 :=
  C6_bootstrap_short_circuits repoMissingRenovate [comp "w"] [] (Or.inl rfl) 1

/-- C7 (code bug): no pull request can ever be created by the per-issue
pipeline, so the labelling and commenting the claim describes never happen.
In a repository with both prerequisites present and one tracking-labelled
issue, the run fails with the `NameError` of `generate_code` (undefined
`file_dict`, line 106; the staging call of line 322 references the undefined
`fpath` and would raise next), and the trace holds no PR, no comment, and no
label.  Moreover the script performs no label mutation on any input at
all. -/
theorem C7_pipeline_never_reaches_pr :
    (∀ (o : RepoOracle) (base : FPath) (fs : FSys),
        ((process_one_repo o base fs).2.2).countP isAddLabel = 0) ∧
    (process_one_repo repoOneIssue [comp "w"] []).1 =
      .error (Err.nameError "file_dict") ∧
    ((process_one_repo repoOneIssue [comp "w"] []).2.2).countP isOpenPR = 0 ∧
    ((process_one_repo repoOneIssue [comp "w"] []).2.2).countP (isCommentFor 1) = 0 ∧
    ((process_one_repo repoOneIssue [comp "w"] []).2.2).countP isAddLabel = 0 :=
  ⟨countAdd_process_one_repo, rfl, rfl, rfl, rfl⟩

/-- C8 (amended): the prerequisite checks do not single out "not found":
every `GithubException`, whatever its status, is treated as missing and
triggers the bootstrap (the default content is materialised), and only an
error outside the `GithubException` class propagates (as `remoteOther`)
without side effects; success returns `true` without side effects. -/
theorem C8_any_ghexception_bootstraps (o : EnsureOracle) (base : FPath) (fs : FSys) :
    (∀ s, o.contents = .ghException s →
        fsLookup (ensure_renovate_file o base fs).2.1 (base ++ [comp "renovate.json"]) =
          some DEFAULT_RENOVATE_JSON ∧
        fsLookup (ensure_workflow_file o base fs).2.1
            (base ++ [comp ".github", comp "workflows", comp "docker.yml"]) =
          some DEFAULT_WORKFLOW_YAML ∧
        (ensure_renovate_file o base fs).1 ≠ .error .remoteOther ∧
        (ensure_workflow_file o base fs).1 ≠ .error .remoteOther) ∧
    (o.contents = .otherError →
        ensure_renovate_file o base fs = (.error .remoteOther, fs, []) ∧
        ensure_workflow_file o base fs = (.error .remoteOther, fs, [])) ∧
    (o.contents = .found →
        ensure_renovate_file o base fs = (.ok true, fs, []) ∧
        ensure_workflow_file o base fs = (.ok true, fs, [])) := by
  obtain ⟨c, br, pu, pr⟩ := o
  refine ⟨?_, ?_, ?_⟩
  · intro s hc
    have hc' : c = .ghException s := hc
    subst hc'
    refine ⟨?_, ?_, ?_, ?_⟩ <;>
      cases br <;> cases pu <;> cases pr <;>
        simp [ensure_renovate_file, ensure_workflow_file, fsWrite, fsLookup]
  · intro hc
    have hc' : c = .otherError := hc
    subst hc'
    exact ⟨rfl, rfl⟩
  · intro hc
    have hc' : c = .found := hc
    subst hc'
    exact ⟨rfl, rfl⟩

/-- Witness for C8 at a server-error (status 500) GithubException. -/
theorem C8_witness :
    fsLookup (ensure_renovate_file ⟨.ghException 500, true, true, true⟩ [comp "w"] []).2.1
        ([comp "w"] ++ [comp "renovate.json"]) = some DEFAULT_RENOVATE_JSON ∧
    fsLookup (ensure_workflow_file ⟨.ghException 500, true, true, true⟩ [comp "w"] []).2.1
        ([comp "w"] ++ [comp ".github", comp "workflows", comp "docker.yml"]) =
      some DEFAULT_WORKFLOW_YAML ∧
    (ensure_renovate_file ⟨.ghException 500, true, true, true⟩ [comp "w"] []).1 ≠
      .error .remoteOther ∧
    (ensure_workflow_file ⟨.ghException 500, true, true, true⟩ [comp "w"] []).1 ≠
      .error .remoteOther :=
  (C8_any_ghexception_bootstraps ⟨.ghException 500, true, true, true⟩ [comp "w"] []).1
    500 rfl

/-- Counterexample to C8 as stated: a GithubException whose status is 500, not
a 404 not-found, still triggers the full bootstrap: the check returns `false`
and a PR is opened, instead of the error propagating as fatal. -/
theorem C8_counterexample :
    (ensure_renovate_file ⟨.ghException 500, true, true, true⟩ [comp "w"] []).1 =
      .ok false ∧
    ((ensure_renovate_file ⟨.ghException 500, true, true, true⟩
        [comp "w"] []).2.2).countP isOpenPR = 1 ∧
    ContentsOutcome.ghException 500 ≠ ContentsOutcome.ghException 404 :=
  ⟨rfl, rfl, by decide⟩

/-- C9 (amended): during a bootstrap, push and PR-creation failures propagate
out of the ensure functions; a branch-creation failure, however, is caught
inside them: the function logs it and returns `false` — the value that means a
bootstrap was performed — with the default file already written and no
branch, commit, push, or PR operation performed. -/
theorem C9_push_pr_propagate_branch_swallowed (o : EnsureOracle) (base : FPath)
    (fs : FSys) (s : Nat) (hc : o.contents = .ghException s) :
    (o.branchOk = false →
        ensure_renovate_file o base fs =
          (.ok false,
            fsWrite fs (base ++ [comp "renovate.json"]) DEFAULT_RENOVATE_JSON, []) ∧
        ensure_workflow_file o base fs =
          (.ok false,
            fsWrite fs (base ++ [comp ".github", comp "workflows", comp "docker.yml"])
              DEFAULT_WORKFLOW_YAML, [])) ∧
    (o.branchOk = true → o.pushOk = false →
        (ensure_renovate_file o base fs).1 = .error .pushFail ∧
        (ensure_workflow_file o base fs).1 = .error .pushFail) ∧
    (o.branchOk = true → o.pushOk = true → o.prOk = false →
        (ensure_renovate_file o base fs).1 = .error .prFail ∧
        (ensure_workflow_file o base fs).1 = .error .prFail) := by
  obtain ⟨c, br, pu, pr⟩ := o
  have hc' : c = .ghException s := hc
  subst hc'
  refine ⟨?_, ?_, ?_⟩
  · intro hbr
    have hbr' : br = false := hbr
    subst hbr'
    exact ⟨rfl, rfl⟩
  · intro hbr hpu
    have hbr' : br = true := hbr
    have hpu' : pu = false := hpu
    subst hbr'
    subst hpu'
    exact ⟨rfl, rfl⟩
  · intro hbr hpu hpr
    have hbr' : br = true := hbr
    have hpu' : pu = true := hpu
    have hpr' : pr = false := hpr
    subst hbr'
    subst hpu'
    subst hpr'
    exact ⟨rfl, rfl⟩

/-- Witness for C9: with the branch created and the push failing, both ensure
functions raise the push error. -/
theorem C9_witness :
    (ensure_renovate_file ⟨.ghException 404, true, false, true⟩ [comp "w"] []).1 =
      .error .pushFail ∧
    (ensure_workflow_file ⟨.ghException 404, true, false, true⟩ [comp "w"] []).1 =
      .error .pushFail :=
  (C9_push_pr_propagate_branch_swallowed ⟨.ghException 404, true, false, true⟩
    [comp "w"] [] 404 rfl).2.1 rfl rfl

/-- Counterexample to C9 as stated: when branch creation fails during the
bootstrap, no error propagates out of the ensure function; it returns
`false` — the value meaning a bootstrap was performed — with the default file
written and no further git or remote operation. -/
theorem C9_counterexample :
    ensure_renovate_file ⟨.ghException 404, false, true, true⟩ [comp "w"] [] =
      (.ok false, fsWrite [] ([comp "w"] ++ [comp "renovate.json"])
        DEFAULT_RENOVATE_JSON, []) :=
  rfl

end GenerateDemo
